import Mathlib

/-!
Verification development for the trading-bot repository (FastAPI backend +
React frontend).  The backend Python sources (strategy, execution engine,
orchestrator, API routes) are not present under src/ — only the README, the
frontend TypeScript sources and the setup scripts are.  Definitions taken
from a frontend source file cite it; definitions whose doc comment starts
with "Modelled from the spec:" embed a backend component that is missing
from src/, following the spec's words (§-references are to spec.md).

Prices, quantities, balances and confidences are embedded as rationals (ℚ):
the spec demands exact P&L arithmetic ("realized P&L = (exit − entry) ×
quantity exactly").
-/

namespace TradingBot

/-- A market candle, from the `MarketCandle` interface in the shared API
types file (src/unnamed/part_001).  The source field `open` is a Lean
keyword and is embedded as `open_price`. -/
structure MarketCandle where
  symbol : String
  timeframe : String
  timestamp : ℕ
  open_price : ℚ
  high : ℚ
  low : ℚ
  close : ℚ
  volume : ℚ
  deriving DecidableEq

instance : Inhabited MarketCandle :=
  ⟨{ symbol := "", timeframe := "", timestamp := 0, open_price := 0,
     high := 0, low := 0, close := 0, volume := 0 }⟩

/-- Signal type, from the `SignalType` enum in src/unnamed/part_001. -/
inductive SignalType where
  | BUY
  | SELL
  | HOLD
  deriving DecidableEq

/-- The result of a strategy evaluation: `Signal{type, confidence, reason}`
per the evaluation contract of §4.2. -/
structure EvalSignal where
  signal_type : SignalType
  confidence : ℚ
  reason : String
  deriving DecidableEq

/-- Blue Sky strategy parameters (§4.2): `lookback` and `min_confidence`. -/
structure BlueSkyParams where
  lookback : ℕ
  min_confidence : ℚ
  deriving DecidableEq

/-- Maximum of the `high` fields of a candle list (0 on the empty list,
which the callers below never pass). -/
def maxHigh : List MarketCandle → ℚ
  | [] => 0
  | [c] => c.high
  | c :: c2 :: rest => max c.high (maxHigh (c2 :: rest))

/-- The lookback window of §4.2: the `lookback` candles immediately
preceding the current (last) candle, the current candle excluded. -/
def lookbackWindow (candles : List MarketCandle) (lookback : ℕ) : List MarketCandle :=
  let prior := candles.dropLast
  prior.drop (prior.length - lookback)

/-- The close of the current (last) candle of the window. -/
def blueSkyCloseNow (candles : List MarketCandle) : ℚ :=
  (candles.getLastD default).close

/-- `H = max(high[-lookback:-1])` of §4.2: the breakout resistance level. -/
def blueSkyH (candles : List MarketCandle) (lookback : ℕ) : ℚ :=
  maxHigh (lookbackWindow candles lookback)

/-- The Blue Sky confidence of §4.2: the breakout magnitude
`(close_now - H) / H`, capped at 1.0. -/
def blueSkyConfidence (candles : List MarketCandle) (lookback : ℕ) : ℚ :=
  min 1 ((blueSkyCloseNow candles - blueSkyH candles lookback) / blueSkyH candles lookback)

/-- Modelled from the spec: `services/strategies/blue_sky.py` is absent from
src/ (the README of src/unnamed/part_000 only names the strategy).  §4.2:
with fewer than `lookback+1` candles, HOLD with reason "insufficient
history"; zero or negative `H` must not raise and is treated as HOLD; if
`close_now > H`, BUY with confidence `min 1 ((close_now - H) / H)`, degraded
to HOLD (confidence still reported) when that confidence is below
`min_confidence`; otherwise HOLD with confidence 0. -/
def blueSkyEvaluate (candles : List MarketCandle) (p : BlueSkyParams) : EvalSignal :=
  if candles.length < p.lookback + 1 then
    { signal_type := .HOLD, confidence := 0, reason := "insufficient history" }
  else if blueSkyH candles p.lookback ≤ 0 then
    { signal_type := .HOLD, confidence := 0, reason := "invalid price history" }
  else if blueSkyH candles p.lookback < blueSkyCloseNow candles then
    if blueSkyConfidence candles p.lookback < p.min_confidence then
      { signal_type := .HOLD, confidence := blueSkyConfidence candles p.lookback,
        reason := "breakout confidence below min_confidence threshold" }
    else
      { signal_type := .BUY, confidence := blueSkyConfidence candles p.lookback,
        reason := "blue sky breakout" }
  else
    { signal_type := .HOLD, confidence := 0, reason := "no breakout" }

/-- Order side, from the `OrderSide` enum in src/unnamed/part_001. -/
inductive OrderSide where
  | BUY
  | SELL
  deriving DecidableEq

/-- Order status, from the `OrderStatus` enum in src/unnamed/part_001. -/
inductive OrderStatus where
  | OPEN
  | CLOSED
  | CANCELLED
  deriving DecidableEq

/-- Position state, from the `PositionState` enum in src/unnamed/part_001
(SHORT is reserved and unused by the shipped strategy, §4.3). -/
inductive PositionState where
  | NONE
  | LONG
  | SHORT
  deriving DecidableEq

/-- A per-bot position (§3): state, quantity, average entry price. -/
structure Position where
  state : PositionState
  quantity : ℚ
  avg_entry_price : ℚ
  deriving DecidableEq

/-- An order, with the fields of the `Order` interface in
src/unnamed/part_001 that carry trade content. -/
structure Order where
  id : String
  side : OrderSide
  quantity : ℚ
  price : ℚ
  status : OrderStatus
  position_state : PositionState
  entry_price : ℚ
  exit_price : Option ℚ
  pnl : ℚ
  deriving DecidableEq

/-- Modelled from the spec: `services/execution.py` is absent from src/.
§4.3 Paper Execution Engine, `execute(signal, position, balance)`:
NONE + BUY opens an Order (side BUY, status OPEN) with quantity sized as a
configurable fraction of the balance at the close price, debits the balance,
and moves the Position to LONG; LONG + SELL closes the open Order (status
CLOSED, `exit_price` = current close, realized P&L = (exit − entry) ×
quantity), credits the balance by the proceeds and moves the Position to
NONE; every other combination is a no-op (LONG + BUY/HOLD creates no second
order; HOLD while NONE does nothing; a SELL with no open order is the
ExecutionInvariantViolation of §7 and commits nothing). -/
def execute (sig : EvalSignal) (pos : Position) (balance : ℚ)
    (openOrder : Option Order) (close : ℚ) (fraction : ℚ) :
    Option Order × Position × ℚ :=
  match sig.signal_type, pos.state with
  | .BUY, .NONE =>
    let qty := fraction * balance / close
    (some { id := ""
            side := .BUY
            quantity := qty
            price := close
            status := .OPEN
            position_state := .LONG
            entry_price := close
            exit_price := none
            pnl := 0 },
     { state := .LONG, quantity := qty, avg_entry_price := close },
     balance - qty * close)
  | .SELL, .LONG =>
    match openOrder with
    | some o =>
      (some { o with
              status := .CLOSED
              exit_price := some close
              pnl := (close - o.entry_price) * o.quantity },
       { state := .NONE, quantity := 0, avg_entry_price := 0 },
       balance + close * o.quantity)
    | none => (none, pos, balance)
  | _, _ => (none, pos, balance)

/-- The content hash of the inputs that produced a Signal (§3).  The hash is
embedded as the hashed content itself, which makes it injective — the ideal
behaviour the spec assumes of `inputs_hash`. -/
abbrev InputsHash := List MarketCandle × BlueSkyParams

/-- A persisted signal, from the `Signal` interface in src/unnamed/part_001
(record-keeping fields such as ids and timestamps are omitted). -/
structure Signal where
  bot_id : ℕ
  signal_type : SignalType
  confidence : ℚ
  reason : String
  inputs_hash : InputsHash
  deriving DecidableEq

/-- The persisted per-bot state the run pipeline reads and writes:
signals, orders, Position and simulated balance (§3, §4.4). -/
structure BotRunState where
  signals : List Signal
  orders : List Order
  position : Position
  balance : ℚ
  deriving DecidableEq

/-- A run outcome (§6: success or skipped-duplicate). -/
inductive RunOutcome where
  | success
  | duplicate
  deriving DecidableEq

/-- The Signal record persisted for an evaluation result. -/
def mkSignal (bot : ℕ) (sig : EvalSignal) (h : InputsHash) : Signal :=
  { bot_id := bot, signal_type := sig.signal_type, confidence := sig.confidence,
    reason := sig.reason, inputs_hash := h }

/-- How a run's execution result is committed to the order book: a newly
opened order is appended, a closed order replaces the open one, and no
order means the book is untouched. -/
def updatedOrders (newOrder : Option Order) (orders : List Order) : List Order :=
  match newOrder with
  | some o =>
    if o.status = .OPEN then o :: orders
    else o :: orders.filter (fun x => !(decide (x.status = .OPEN)))
  | none => orders

/-- The execution step of a single run: the Paper Execution Engine applied
to the strategy's Signal, the persisted Position/balance, the currently
open order and the current close price. -/
def pipelineExec (candles : List MarketCandle) (p : BlueSkyParams)
    (fraction : ℚ) (st : BotRunState) : Option Order × Position × ℚ :=
  execute (blueSkyEvaluate candles p) st.position st.balance
    (st.orders.find? (fun o => decide (o.status = .OPEN)))
    (blueSkyCloseNow candles) fraction

/-- Modelled from the spec: the Bot Run Orchestrator (`main.py` pipeline /
`services/scheduler.py`) is absent from src/.  §4.4 single run: evaluate the
strategy on the candle window, but first check `inputs_hash` — if a Signal
with the same hash is already persisted, the run is a no-op with a
"duplicate" outcome; otherwise persist the new Signal, hand it to the Paper
Execution Engine, and commit the updated orders, Position and balance. -/
def runOnce (bot : ℕ) (candles : List MarketCandle) (p : BlueSkyParams)
    (fraction : ℚ) (st : BotRunState) : BotRunState × RunOutcome :=
  if st.signals.any (fun s => decide (s.inputs_hash = (candles, p))) then
    (st, .duplicate)
  else
    ({ signals := mkSignal bot (blueSkyEvaluate candles p) (candles, p) :: st.signals
       orders := updatedOrders (pipelineExec candles p fraction st).1 st.orders
       position := (pipelineExec candles p fraction st).2.1
       balance := (pipelineExec candles p fraction st).2.2 }, .success)

/-- HTTP method of a request issued by the frontend `ApiClient`
(src/frontend/utils/api.ts: get/post/put/delete wrappers). -/
inductive HttpMethod where
  | GET
  | POST
  | PUT
  | DELETE
  deriving DecidableEq

/-- A request issued by the frontend `ApiClient`. -/
structure HttpRequest where
  method : HttpMethod
  path : String
  deriving DecidableEq

/-- From `OrdersTable` (src/frontend/components/BotDetailPage.tsx): the
Cancel control is rendered for a row iff the order's status is OPEN and an
`onCancelOrder` handler was supplied. -/
def ordersTableShowsCancel (o : Order) (hasHandler : Bool) : Bool :=
  decide (o.status = OrderStatus.OPEN) && hasHandler

/-- From `useOrders.cancelOrder` (src/frontend/hooks/useTrading.ts): issues
a POST to the cancel endpoint; on success removes the cancelled order from
the local list and returns true, on failure leaves the list unchanged and
returns false. -/
def cancelOrder (orders : List Order) (orderId : String)
    (resp : Except String Unit) : List HttpRequest × List Order × Bool :=
  ([⟨.POST, "/trading/orders/" ++ orderId ++ "/cancel"⟩],
    match resp with
    | .ok _ => (orders.filter (fun o => !(decide (o.id = orderId))), true)
    | .error _ => (orders, false))

/-- Modelled from the spec: the backend POST /trading/orders/:id/cancel
route is absent from src/.  §4.3: an OPEN order may be moved to CANCELLED
only via an explicit external cancel request; cancelling releases no P&L
(the order's pnl is untouched). -/
def serverCancelOrder (orders : List Order) (oid : String) :
    Except String (List Order) :=
  match orders.find? (fun o => decide (o.id = oid)) with
  | none => .error "order not found"
  | some o =>
    if o.status = OrderStatus.OPEN then
      .ok (orders.map (fun x =>
        if x.id = oid then { x with status := OrderStatus.CANCELLED } else x))
    else
      .error "only open orders can be cancelled"

/-- Bot state, from the `BotState` enum in src/unnamed/part_001. -/
inductive BotState where
  | stopped
  | running
  | error
  | paused
  deriving DecidableEq

/-- A bot state command of §4.4 / §6 (`startBot`, `stopBot`, `pauseBot`,
`resumeBot`). -/
inductive BotCommand where
  | start
  | stop
  | pause
  | resume
  deriving DecidableEq

/-- From `BotCard` (src/frontend/components/BotDetailPage.tsx): the state
commands whose buttons are rendered for each bot state — Start only when
stopped, Pause and Stop only when running, Resume only when paused, and no
state command at all when in error. -/
def botCardCommands : BotState → List BotCommand
  | .stopped => [.start]
  | .running => [.pause, .stop]
  | .paused => [.resume]
  | .error => []

/-- Modelled from the spec: the backend bot state machine
(`api/routes/bots.py` / `services/scheduler.py`) is absent from src/.
§4.4 transitions: start STOPPED→RUNNING, stop RUNNING|PAUSED|ERROR→STOPPED,
pause RUNNING→PAUSED, resume PAUSED→RUNNING; §6: start on an
already-RUNNING bot is a no-op, not an error; anything else fails with an
invalid-transition error (none). -/
def applyCommand : BotCommand → BotState → Option BotState
  | .start, .stopped => some .running
  | .start, .running => some .running
  | .stop, .running => some .stopped
  | .stop, .paused => some .stopped
  | .stop, .error => some .stopped
  | .pause, .running => some .paused
  | .resume, .paused => some .running
  | _, _ => none

/-- Asset type, from the `AssetType` enum in src/unnamed/part_001. -/
inductive AssetType where
  | crypto
  | forex
  | stocks
  deriving DecidableEq

/-- Strategy identifier, from the `StrategyId` enum in
src/unnamed/part_001. -/
inductive StrategyId where
  | blue_sky
  deriving DecidableEq

/-- A bot record, with the configuration fields of the `Bot` interface in
src/unnamed/part_001 (record-keeping fields are omitted; `params` is the
typed Blue Sky parameter pair). -/
structure Bot where
  id : String
  name : String
  asset_type : AssetType
  symbol : String
  timeframe : String
  strategy_id : StrategyId
  state : BotState
  interval_seconds : ℕ
  params : BlueSkyParams
  deriving DecidableEq

/-- The configuration payload of a bot update (`BotUpdate` in
src/unnamed/part_001; the edit modal always submits every field). -/
structure BotUpdate where
  name : String
  asset_type : AssetType
  symbol : String
  timeframe : String
  strategy_id : StrategyId
  interval_seconds : ℕ
  params : BlueSkyParams
  deriving DecidableEq

/-- Modelled from the spec: the backend PUT /bots/:id route is absent from
src/.  §3: a Bot is mutated by explicit configuration updates only while
stopped; in any other state the update is rejected and the bot is
unchanged. -/
def updateBotConfig (b : Bot) (u : BotUpdate) : Except String Bot :=
  if b.state = BotState.stopped then
    .ok { b with
          name := u.name
          asset_type := u.asset_type
          symbol := u.symbol
          timeframe := u.timeframe
          strategy_id := u.strategy_id
          interval_seconds := u.interval_seconds
          params := u.params }
  else
    .error "configuration updates are only permitted while the bot is stopped"

/-- From `useBots.updateBot` (src/frontend/hooks/useBots.ts lines 43-54):
on a successful response the local bot list replaces the matching bot with
the server's updated record and the updated bot is returned; on an error
response the list is left unchanged and null is returned. -/
def updateBot (bots : List Bot) (botId : String) (resp : Except String Bot) :
    List Bot × Option Bot :=
  match resp with
  | .ok updated => (bots.map (fun b => if b.id = botId then updated else b), some updated)
  | .error _ => (bots, none)

/-- The bot-creation/edit form state of `CreateBotModal`
(src/frontend/components/BotDetailPage.tsx), with the two strategy
parameters flattened out of `params`. -/
structure BotFormData where
  name : String
  asset_type : AssetType
  symbol : String
  timeframe : String
  strategy_id : StrategyId
  interval_seconds : Int
  lookback : Int
  min_confidence : ℚ
  deriving DecidableEq

/-- The initial `formData` of `CreateBotModal`: defaults lookback = 20 and
min_confidence = 0.6. -/
def initialFormData : BotFormData :=
  { name := ""
    asset_type := .crypto
    symbol := ""
    timeframe := "1h"
    strategy_id := .blue_sky
    interval_seconds := 60
    lookback := 20
    min_confidence := 6/10 }

/-- From `validateForm` (src/frontend/components/BotDetailPage.tsx): the
list of form fields in error — empty name, empty symbol, interval below 30
seconds, lookback outside [5,100], min_confidence outside [0.1,1.0]. -/
def validateForm (f : BotFormData) : List String :=
  (if f.name.trim = "" then ["name"] else []) ++
  (if f.symbol.trim = "" then ["symbol"] else []) ++
  (if f.interval_seconds < 30 then ["interval_seconds"] else []) ++
  (if f.lookback < 5 ∨ f.lookback > 100 then ["lookback"] else []) ++
  (if f.min_confidence < 1/10 ∨ f.min_confidence > 1 then ["min_confidence"] else [])

/-- From `handleSubmit` (src/frontend/components/BotDetailPage.tsx): the
create/update request is issued iff `validateForm` reports no errors. -/
def handleSubmitIssuesRequest (f : BotFormData) : Bool :=
  (validateForm f).isEmpty

/-- Portfolio summary, from the `PortfolioSummary` interface in
src/unnamed/part_001. -/
structure PortfolioSummary where
  balance : ℚ
  total_pnl : ℚ
  open_positions_value : ℚ
  total_value : ℚ
  pnl_percentage : ℚ
  available_balance : ℚ
  margin_used : ℚ
  deriving DecidableEq

/-- The local state of the `usePortfolio` hook
(src/frontend/hooks/useTrading.ts). -/
structure PortfolioHookState where
  portfolio : Option PortfolioSummary
  loading : Bool
  deriving DecidableEq

/-- From `usePortfolio.fetchPortfolio` (src/frontend/hooks/useTrading.ts
lines 100-114): with an empty bot id nothing happens; otherwise a single
GET of the portfolio summary is issued, and only the hook's own
portfolio/loading fields are updated from the response. -/
def fetchPortfolio (botId : String) (resp : Except String PortfolioSummary)
    (s : PortfolioHookState) : List HttpRequest × PortfolioHookState :=
  if botId = "" then ([], s)
  else
    ([⟨.GET, "/trading/portfolio/" ++ botId⟩],
      match resp with
      | .ok summary => { portfolio := some summary, loading := false }
      | .error _ => { s with loading := false })

/-- Total realized P&L of the closed orders of a book. -/
def closedPnlTotal (orders : List Order) : ℚ :=
  (orders.filter (fun o => decide (o.status = OrderStatus.CLOSED))).foldr
    (fun o acc => o.pnl + acc) 0

/-- Modelled from the spec: the backend GET /trading/portfolio/:botId route
is absent from src/.  §3: the portfolio summary is derived on demand from
balance + open Position + closed Orders, and is not separately persisted. -/
def getPortfolioSummary (st : BotRunState) (markPrice : ℚ) : PortfolioSummary :=
  { balance := st.balance
    total_pnl := closedPnlTotal st.orders
    open_positions_value := st.position.quantity * markPrice
    total_value := st.balance + st.position.quantity * markPrice
    pnl_percentage :=
      if st.balance + st.position.quantity * markPrice - closedPnlTotal st.orders = 0 then 0
      else closedPnlTotal st.orders /
        (st.balance + st.position.quantity * markPrice - closedPnlTotal st.orders) * 100
    available_balance := st.balance
    margin_used := 0 }

/-- A trading API request as dispatched by the backend. -/
inductive TradingApiRequest where
  | getPortfolio (botId : String)
  | cancelOrder (orderId : String)

/-- Modelled from the spec: the backend trading route handlers
(`api/routes/trading.py`) are absent from src/.  `getPortfolioSummary` is a
derived read with no side effects (§6); the cancel request mutates the
order book through `serverCancelOrder`. -/
def handleTradingRequest (st : BotRunState) (markPrice : ℚ) :
    TradingApiRequest → BotRunState × Option PortfolioSummary
  | .getPortfolio _ => (st, some (getPortfolioSummary st markPrice))
  | .cancelOrder oid =>
    match serverCancelOrder st.orders oid with
    | .ok os => ({ st with orders := os }, none)
    | .error _ => (st, none)

/-- A JSON value, for the response bodies handled by `ApiClient.request`. -/
inductive Json where
  | null
  | bool (b : Bool)
  | num (q : ℚ)
  | str (s : String)
  | arr (elems : List Json)
  | obj (fields : List (String × Json))

/-- The fallback error object built by `ApiClient.request`
(src/frontend/utils/api.ts) when a non-ok response body cannot be parsed as
JSON: type "NetworkError", message "Network request failed", and the
response's status code. -/
def fallbackNetworkError (status : ℕ) : Json :=
  .obj [("error", .obj [("type", .str "NetworkError"),
                        ("message", .str "Network request failed"),
                        ("status_code", .num (status : ℚ))])]

/-- An HTTP response as `ApiClient.request` observes it: the ok flag, the
status code, and the body — `some j` when `response.json()` parses it as
the JSON value `j`, `none` when parsing fails. -/
structure HttpResponse where
  ok : Bool
  status : ℕ
  body : Option Json

/-- A value thrown by `ApiClient.request`: either a thrown JSON error value
or the JSON-parse exception of an ok response whose body is unparsable. -/
inductive Thrown where
  | jsonError (j : Json)
  | parseFailure

namespace ApiClient

/-- From `ApiClient.request` (src/frontend/utils/api.ts lines 19-52): when
the response is not ok, throw its body parsed as JSON, falling back to the
NetworkError object when parsing fails; when the response is ok, return its
parsed JSON body (an unparsable ok body propagates the parse exception). -/
def request (resp : HttpResponse) : Except Thrown Json :=
  if resp.ok = false then
    match resp.body with
    | some j => .error (.jsonError j)
    | none => .error (.jsonError (fallbackNetworkError resp.status))
  else
    match resp.body with
    | some j => .ok j
    | none => .error .parseFailure

end ApiClient

/-- A concrete three-candle window for the witnesses: two prior candles with
highs 10 and 8, a current candle closing at 12. -/
def witnessWindow : List MarketCandle :=
  [{ symbol := "BTCUSDT", timeframe := "1h", timestamp := 1, open_price := 9,
     high := 10, low := 8, close := 9, volume := 5 },
   { symbol := "BTCUSDT", timeframe := "1h", timestamp := 2, open_price := 9,
     high := 8, low := 7, close := 8, volume := 5 },
   { symbol := "BTCUSDT", timeframe := "1h", timestamp := 3, open_price := 8,
     high := 13, low := 8, close := 12, volume := 5 }]

/-- A concrete open order for the witnesses. -/
def openOrderW : Order := ⟨"o1", .BUY, 50, 10, .OPEN, .LONG, 10, none, 0⟩

/-- A concrete already-cancelled order for the witnesses. -/
def cancelledOrderW : Order := ⟨"o2", .BUY, 5, 10, .CANCELLED, .LONG, 10, none, 0⟩

/-- A concrete run state holding one cancelled order, for the witnesses. -/
def stW : BotRunState := ⟨[], [cancelledOrderW], ⟨.NONE, 0, 0⟩, 100⟩

/-- A concrete running bot for the witnesses. -/
def botRunningW : Bot :=
  ⟨"b1", "Bot", .crypto, "BTCUSDT", "1h", .blue_sky, .running, 60, ⟨20, 6/10⟩⟩

/-- A concrete configuration-update payload for the witnesses. -/
def updateW : BotUpdate := ⟨"Bot2", .crypto, "ETHUSDT", "4h", .blue_sky, 120, ⟨30, 7/10⟩⟩

/-- A filled form whose lookback is out of range, for the witnesses. -/
def badFormW : BotFormData :=
  { initialFormData with name := "n", symbol := "BTCUSDT", lookback := 200 }

/-- A filled form whose min_confidence is out of range, for the witnesses. -/
def badForm2W : BotFormData :=
  { initialFormData with name := "n", symbol := "BTCUSDT", min_confidence := 2 }

/-- Claim C1: for every candle window with at least `lookback+1` candles
(and positive resistance `H`, i.e. valid price data per §4.2), the Blue Sky
evaluator signals BUY with confidence `min 1 ((close_now - H) / H)` when
`close_now > H` and that confidence reaches `min_confidence`; it degrades to
HOLD with the same reported confidence when the confidence is below
`min_confidence`; and it signals HOLD with confidence 0 when
`close_now ≤ H`. -/
theorem blueSky_breakout_rule (candles : List MarketCandle) (p : BlueSkyParams)
    (hlen : p.lookback + 1 ≤ candles.length)
    (hH : 0 < blueSkyH candles p.lookback) :
    (blueSkyH candles p.lookback < blueSkyCloseNow candles →
      p.min_confidence ≤ blueSkyConfidence candles p.lookback →
      (blueSkyEvaluate candles p).signal_type = SignalType.BUY ∧
      (blueSkyEvaluate candles p).confidence = blueSkyConfidence candles p.lookback) ∧
    (blueSkyH candles p.lookback < blueSkyCloseNow candles →
      blueSkyConfidence candles p.lookback < p.min_confidence →
      (blueSkyEvaluate candles p).signal_type = SignalType.HOLD ∧
      (blueSkyEvaluate candles p).confidence = blueSkyConfidence candles p.lookback) ∧
    (blueSkyCloseNow candles ≤ blueSkyH candles p.lookback →
      (blueSkyEvaluate candles p).signal_type = SignalType.HOLD ∧
      (blueSkyEvaluate candles p).confidence = 0) := by
  have hnot : ¬ (candles.length < p.lookback + 1) := by omega
  refine ⟨?_, ?_, ?_⟩
  · intro hgt hge
    unfold blueSkyEvaluate
    rw [if_neg hnot, if_neg (not_le.mpr hH), if_pos hgt, if_neg (not_lt.mpr hge)]
    exact ⟨rfl, rfl⟩
  · intro hgt hlt
    unfold blueSkyEvaluate
    rw [if_neg hnot, if_neg (not_le.mpr hH), if_pos hgt, if_pos hlt]
    exact ⟨rfl, rfl⟩
  · intro hle
    unfold blueSkyEvaluate
    rw [if_neg hnot, if_neg (not_le.mpr hH), if_neg (not_lt.mpr hle)]
    exact ⟨rfl, rfl⟩

/-- Witness for C1: on `witnessWindow` with lookback 2 and min_confidence
0.1, the hypotheses hold (`H = 10 > 0`) and the breakout conclusion follows
from `blueSky_breakout_rule`. -/
theorem blueSky_breakout_rule_witness :
    ((⟨2, 1/10⟩ : BlueSkyParams).lookback + 1 ≤ witnessWindow.length ∧
      0 < blueSkyH witnessWindow 2) ∧
    ((blueSkyH witnessWindow 2 < blueSkyCloseNow witnessWindow →
      (1 : ℚ)/10 ≤ blueSkyConfidence witnessWindow 2 →
      (blueSkyEvaluate witnessWindow ⟨2, 1/10⟩).signal_type = SignalType.BUY ∧
      (blueSkyEvaluate witnessWindow ⟨2, 1/10⟩).confidence = blueSkyConfidence witnessWindow 2) ∧
    (blueSkyH witnessWindow 2 < blueSkyCloseNow witnessWindow →
      blueSkyConfidence witnessWindow 2 < (1 : ℚ)/10 →
      (blueSkyEvaluate witnessWindow ⟨2, 1/10⟩).signal_type = SignalType.HOLD ∧
      (blueSkyEvaluate witnessWindow ⟨2, 1/10⟩).confidence = blueSkyConfidence witnessWindow 2) ∧
    (blueSkyCloseNow witnessWindow ≤ blueSkyH witnessWindow 2 →
      (blueSkyEvaluate witnessWindow ⟨2, 1/10⟩).signal_type = SignalType.HOLD ∧
      (blueSkyEvaluate witnessWindow ⟨2, 1/10⟩).confidence = 0)) :=
  ⟨⟨by decide, by decide⟩,
    blueSky_breakout_rule witnessWindow ⟨2, 1/10⟩ (by decide) (by decide)⟩

/-- Claim C2: for every candle window with fewer than `lookback+1` candles,
the Blue Sky evaluator returns HOLD with reason "insufficient history". -/
theorem blueSky_insufficient_history (candles : List MarketCandle) (p : BlueSkyParams)
    (hlen : candles.length < p.lookback + 1) :
    blueSkyEvaluate candles p =
      { signal_type := .HOLD, confidence := 0, reason := "insufficient history" } := by
  unfold blueSkyEvaluate
  rw [if_pos hlen]

/-- Witness for C2: the empty window is shorter than `20+1` candles and
yields the insufficient-history HOLD, by `blueSky_insufficient_history`. -/
theorem blueSky_insufficient_history_witness :
    ([] : List MarketCandle).length < (⟨20, 6/10⟩ : BlueSkyParams).lookback + 1 ∧
    blueSkyEvaluate [] ⟨20, 6/10⟩ =
      { signal_type := .HOLD, confidence := 0, reason := "insufficient history" } :=
  ⟨by decide, blueSky_insufficient_history [] ⟨20, 6/10⟩ (by decide)⟩

/-- A run whose inputs hash to an already-persisted Signal is a no-op with
the duplicate outcome. -/
theorem runOnce_duplicate (bot : ℕ) (candles : List MarketCandle)
    (p : BlueSkyParams) (fraction : ℚ) (st : BotRunState)
    (h : st.signals.any (fun s => decide (s.inputs_hash = (candles, p))) = true) :
    runOnce bot candles p fraction st = (st, .duplicate) := by
  unfold runOnce
  rw [if_pos h]

/-- A fresh run persists exactly one new Signal, carrying the inputs hash. -/
theorem runOnce_fresh_signals (bot : ℕ) (candles : List MarketCandle)
    (p : BlueSkyParams) (fraction : ℚ) (st : BotRunState)
    (h : st.signals.any (fun s => decide (s.inputs_hash = (candles, p))) = false) :
    (runOnce bot candles p fraction st).1.signals =
      mkSignal bot (blueSkyEvaluate candles p) (candles, p) :: st.signals := by
  unfold runOnce
  rw [if_neg (by rw [h]; exact Bool.false_ne_true)]

/-- A fresh run reports the success outcome. -/
theorem runOnce_fresh_outcome (bot : ℕ) (candles : List MarketCandle)
    (p : BlueSkyParams) (fraction : ℚ) (st : BotRunState)
    (h : st.signals.any (fun s => decide (s.inputs_hash = (candles, p))) = false) :
    (runOnce bot candles p fraction st).2 = .success := by
  unfold runOnce
  rw [if_neg (by rw [h]; exact Bool.false_ne_true)]

/-- Committing an execution result grows the order book by at most one
order. -/
theorem updatedOrders_length_le (newOrder : Option Order) (orders : List Order) :
    (updatedOrders newOrder orders).length ≤ orders.length + 1 := by
  rcases newOrder with _ | o
  · exact Nat.le_succ _
  · unfold updatedOrders
    by_cases ho : o.status = .OPEN
    · simp [ho]
    · simp only [if_neg ho, List.length_cons]
      exact Nat.succ_le_succ (List.length_filter_le _ _)

/-- A single run grows the order book by at most one order. -/
theorem runOnce_orders_le (bot : ℕ) (candles : List MarketCandle)
    (p : BlueSkyParams) (fraction : ℚ) (st : BotRunState) :
    (runOnce bot candles p fraction st).1.orders.length ≤ st.orders.length + 1 := by
  unfold runOnce
  by_cases h : st.signals.any (fun s => decide (s.inputs_hash = (candles, p))) = true
  · rw [if_pos h]
    exact Nat.le_succ _
  · rw [if_neg h]
    exact updatedOrders_length_le _ _

/-- Claim C3: with an inputs hash not yet persisted, running the pipeline
twice on an identical candle window with identical strategy parameters is
idempotent: the first run succeeds, the second run is a duplicate no-op
that leaves the state unchanged, exactly one Signal carries that inputs
hash, and at most one Order was created. -/
theorem run_pipeline_idempotent (bot : ℕ) (candles : List MarketCandle)
    (p : BlueSkyParams) (fraction : ℚ) (st : BotRunState)
    (hfresh : ∀ s ∈ st.signals, s.inputs_hash ≠ (candles, p)) :
    (runOnce bot candles p fraction st).2 = RunOutcome.success ∧
    (runOnce bot candles p fraction (runOnce bot candles p fraction st).1).2 =
      RunOutcome.duplicate ∧
    (runOnce bot candles p fraction (runOnce bot candles p fraction st).1).1 =
      (runOnce bot candles p fraction st).1 ∧
    ((runOnce bot candles p fraction st).1.signals.filter
        (fun s => decide (s.inputs_hash = (candles, p)))).length = 1 ∧
    (runOnce bot candles p fraction st).1.orders.length ≤ st.orders.length + 1 := by
  have hany : st.signals.any (fun s => decide (s.inputs_hash = (candles, p))) = false := by
    rw [List.any_eq_false]
    intro s hs
    simpa using hfresh s hs
  have hsig := runOnce_fresh_signals bot candles p fraction st hany
  have hany2 : (runOnce bot candles p fraction st).1.signals.any
      (fun s => decide (s.inputs_hash = (candles, p))) = true := by
    rw [hsig]
    simp [mkSignal]
  have hdup := runOnce_duplicate bot candles p fraction
    (runOnce bot candles p fraction st).1 hany2
  refine ⟨runOnce_fresh_outcome bot candles p fraction st hany, ?_, ?_, ?_, ?_⟩
  · rw [hdup]
  · rw [hdup]
  · rw [hsig, List.filter_cons]
    have : (st.signals.filter (fun s => decide (s.inputs_hash = (candles, p)))) = [] := by
      rw [List.filter_eq_nil_iff]
      intro s hs
      simpa using hfresh s hs
    simp [mkSignal, this]
  · exact runOnce_orders_le bot candles p fraction st

/-- Witness for C3: a fresh empty state, the concrete window and concrete
parameters, with the idempotence conclusion given by
`run_pipeline_idempotent`. -/
theorem run_pipeline_idempotent_witness :
    (∀ s ∈ (⟨[], [], ⟨.NONE, 0, 0⟩, 1000⟩ : BotRunState).signals,
        s.inputs_hash ≠ (witnessWindow, (⟨2, 1/10⟩ : BlueSkyParams))) ∧
    ((runOnce 1 witnessWindow ⟨2, 1/10⟩ (1/2) ⟨[], [], ⟨.NONE, 0, 0⟩, 1000⟩).2 =
        RunOutcome.success ∧
      (runOnce 1 witnessWindow ⟨2, 1/10⟩ (1/2)
          (runOnce 1 witnessWindow ⟨2, 1/10⟩ (1/2) ⟨[], [], ⟨.NONE, 0, 0⟩, 1000⟩).1).2 =
        RunOutcome.duplicate ∧
      (runOnce 1 witnessWindow ⟨2, 1/10⟩ (1/2)
          (runOnce 1 witnessWindow ⟨2, 1/10⟩ (1/2) ⟨[], [], ⟨.NONE, 0, 0⟩, 1000⟩).1).1 =
        (runOnce 1 witnessWindow ⟨2, 1/10⟩ (1/2) ⟨[], [], ⟨.NONE, 0, 0⟩, 1000⟩).1 ∧
      ((runOnce 1 witnessWindow ⟨2, 1/10⟩ (1/2) ⟨[], [], ⟨.NONE, 0, 0⟩, 1000⟩).1.signals.filter
          (fun s => decide (s.inputs_hash = (witnessWindow, (⟨2, 1/10⟩ : BlueSkyParams))))).length = 1 ∧
      (runOnce 1 witnessWindow ⟨2, 1/10⟩ (1/2) ⟨[], [], ⟨.NONE, 0, 0⟩, 1000⟩).1.orders.length ≤
        (⟨[], [], ⟨.NONE, 0, 0⟩, 1000⟩ : BotRunState).orders.length + 1) :=
  ⟨by simp, run_pipeline_idempotent 1 witnessWindow ⟨2, 1/10⟩ (1/2)
    ⟨[], [], ⟨.NONE, 0, 0⟩, 1000⟩ (by simp)⟩

/-- Claim C4: the Paper Execution Engine's P&L round trip.  Opening from a
flat position at close price P sizes the order from the balance and debits
it; closing any LONG position's open order by a SELL signal at close price
P2 sets the order's status to CLOSED, records realized P&L exactly
(P2 − entry_price) × quantity, credits the balance by the proceeds
P2 × quantity, and transitions the Position to NONE; in particular the
round trip on the opened order yields P&L (P2 − P) × (f × B / P). -/
theorem paper_execution_pnl_roundtrip (sigB sigS : EvalSignal)
    (hB : sigB.signal_type = SignalType.BUY)
    (hS : sigS.signal_type = SignalType.SELL) (B P P2 f : ℚ) :
    execute sigB ⟨.NONE, 0, 0⟩ B none P f =
      (some ⟨"", .BUY, f * B / P, P, .OPEN, .LONG, P, none, 0⟩,
        ⟨.LONG, f * B / P, P⟩, B - f * B / P * P) ∧
    (∀ (o : Order) (pos : Position) (bal : ℚ), pos.state = PositionState.LONG →
      execute sigS pos bal (some o) P2 f =
        (some { o with
                status := .CLOSED
                exit_price := some P2
                pnl := (P2 - o.entry_price) * o.quantity },
          ⟨.NONE, 0, 0⟩, bal + P2 * o.quantity)) ∧
    execute sigS ⟨.LONG, f * B / P, P⟩ (B - f * B / P * P)
        (some ⟨"", .BUY, f * B / P, P, .OPEN, .LONG, P, none, 0⟩) P2 f =
      (some ⟨"", .BUY, f * B / P, P, .CLOSED, .LONG, P, some P2, (P2 - P) * (f * B / P)⟩,
        ⟨.NONE, 0, 0⟩, (B - f * B / P * P) + P2 * (f * B / P)) := by
  refine ⟨?_, ?_, ?_⟩
  · unfold execute
    rw [hB]
  · intro o pos bal hpos
    obtain ⟨ps, q, a⟩ := pos
    cases hpos
    unfold execute
    rw [hS]
  · unfold execute
    rw [hS]

/-- Witness for C4: concrete BUY and SELL signals, balance 1000, entry 10,
exit 12, sizing fraction 1/2, with the close step also instantiated at the
concrete opened order, all by `paper_execution_pnl_roundtrip`. -/
theorem paper_execution_pnl_roundtrip_witness :
    ((⟨SignalType.BUY, 1, "buy"⟩ : EvalSignal).signal_type = SignalType.BUY ∧
      (⟨SignalType.SELL, 1, "sell"⟩ : EvalSignal).signal_type = SignalType.SELL ∧
      (⟨PositionState.LONG, 50, 10⟩ : Position).state = PositionState.LONG) ∧
    execute ⟨SignalType.BUY, 1, "buy"⟩ ⟨.NONE, 0, 0⟩ 1000 none 10 (1/2) =
      (some ⟨"", .BUY, 1/2 * 1000 / 10, 10, .OPEN, .LONG, 10, none, 0⟩,
        ⟨.LONG, 1/2 * 1000 / 10, 10⟩, 1000 - 1/2 * 1000 / 10 * 10) ∧
    execute ⟨SignalType.SELL, 1, "sell"⟩ ⟨PositionState.LONG, 50, 10⟩ 500
        (some ⟨"o1", .BUY, 50, 10, .OPEN, .LONG, 10, none, 0⟩) 12 (1/2) =
      (some { (⟨"o1", .BUY, 50, 10, .OPEN, .LONG, 10, none, 0⟩ : Order) with
              status := .CLOSED
              exit_price := some 12
              pnl := ((12 : ℚ) - 10) * 50 },
        ⟨.NONE, 0, 0⟩, 500 + 12 * 50) ∧
    execute ⟨SignalType.SELL, 1, "sell"⟩ ⟨.LONG, 1/2 * 1000 / 10, 10⟩
        (1000 - 1/2 * 1000 / 10 * 10)
        (some ⟨"", .BUY, 1/2 * 1000 / 10, 10, .OPEN, .LONG, 10, none, 0⟩) 12 (1/2) =
      (some ⟨"", .BUY, 1/2 * 1000 / 10, 10, .CLOSED, .LONG, 10, some 12,
          ((12 : ℚ) - 10) * (1/2 * 1000 / 10)⟩,
        ⟨.NONE, 0, 0⟩, (1000 - 1/2 * 1000 / 10 * 10) + 12 * (1/2 * 1000 / 10)) :=
  ⟨⟨rfl, rfl, rfl⟩,
    (paper_execution_pnl_roundtrip ⟨SignalType.BUY, 1, "buy"⟩
      ⟨SignalType.SELL, 1, "sell"⟩ rfl rfl 1000 10 12 (1/2)).1,
    (paper_execution_pnl_roundtrip ⟨SignalType.BUY, 1, "buy"⟩
      ⟨SignalType.SELL, 1, "sell"⟩ rfl rfl 1000 10 12 (1/2)).2.1
      ⟨"o1", .BUY, 50, 10, .OPEN, .LONG, 10, none, 0⟩
      ⟨PositionState.LONG, 50, 10⟩ 500 rfl,
    (paper_execution_pnl_roundtrip ⟨SignalType.BUY, 1, "buy"⟩
      ⟨SignalType.SELL, 1, "sell"⟩ rfl rfl 1000 10 12 (1/2)).2.2⟩

/-- An order produced by the Paper Execution Engine is never CANCELLED: the
engine only opens (OPEN) or closes (CLOSED) orders. -/
theorem execute_status_not_cancelled (sig : EvalSignal) (pos : Position)
    (bal : ℚ) (oo : Option Order) (close fraction : ℚ) (o : Order)
    (h : (execute sig pos bal oo close fraction).1 = some o) :
    o.status ≠ OrderStatus.CANCELLED := by
  obtain ⟨ps, q, a⟩ := pos
  rcases oo with _ | o0 <;> cases hsig : sig.signal_type <;> cases ps <;>
    simp_all [execute] <;> subst h <;> simp

/-- Committing an execution result introduces no CANCELLED order: any
CANCELLED order of the committed book was already in the previous book. -/
theorem updatedOrders_cancelled_mem (newOrder : Option Order)
    (orders : List Order) (o : Order)
    (hmem : o ∈ updatedOrders newOrder orders)
    (hc : o.status = OrderStatus.CANCELLED)
    (hno : ∀ o2, newOrder = some o2 → o2.status ≠ OrderStatus.CANCELLED) :
    o ∈ orders := by
  rcases newOrder with _ | o2
  · simpa [updatedOrders] using hmem
  · simp only [updatedOrders] at hmem
    by_cases ho2 : o2.status = OrderStatus.OPEN
    · rw [if_pos ho2] at hmem
      rcases List.mem_cons.mp hmem with h1 | h1
      · exact absurd (h1 ▸ hc) (hno o2 rfl)
      · exact h1
    · rw [if_neg ho2] at hmem
      rcases List.mem_cons.mp hmem with h1 | h1
      · exact absurd (h1 ▸ hc) (hno o2 rfl)
      · exact List.mem_of_mem_filter h1

/-- The run pipeline never moves an order to CANCELLED: any CANCELLED order
after a run was already in the book before it. -/
theorem runOnce_no_new_cancelled (bot : ℕ) (candles : List MarketCandle)
    (p : BlueSkyParams) (fraction : ℚ) (st : BotRunState) (o : Order)
    (hmem : o ∈ (runOnce bot candles p fraction st).1.orders)
    (hc : o.status = OrderStatus.CANCELLED) :
    o ∈ st.orders := by
  unfold runOnce at hmem
  by_cases hany : st.signals.any (fun s => decide (s.inputs_hash = (candles, p))) = true
  · rw [if_pos hany] at hmem
    exact hmem
  · rw [if_neg hany] at hmem
    refine updatedOrders_cancelled_mem _ _ _ hmem hc ?_
    intro o2 h2
    unfold pipelineExec at h2
    exact execute_status_not_cancelled _ _ _ _ _ _ _ h2

/-- Claim C5: the Cancel control of the orders table is offered solely for
OPEN orders; the cancel hook issues exactly the explicit external cancel
request; the backend cancel succeeds only on an order that is OPEN; and the
run pipeline itself never moves an order to CANCELLED (a CANCELLED order
after a run must predate it). -/
theorem cancel_requires_open_order (o : Order) (hasHandler : Bool)
    (orders : List Order) (oid : String) (res : List Order)
    (resp : Except String Unit) (bot : ℕ) (candles : List MarketCandle)
    (p : BlueSkyParams) (fraction : ℚ) (st : BotRunState) (o2 : Order) :
    (ordersTableShowsCancel o hasHandler = true → o.status = OrderStatus.OPEN) ∧
    ((cancelOrder orders oid resp).1 =
      [⟨HttpMethod.POST, "/trading/orders/" ++ oid ++ "/cancel"⟩]) ∧
    (serverCancelOrder orders oid = .ok res →
      ∃ oc ∈ orders, oc.id = oid ∧ oc.status = OrderStatus.OPEN) ∧
    (o2 ∈ (runOnce bot candles p fraction st).1.orders →
      o2.status = OrderStatus.CANCELLED → o2 ∈ st.orders) := by
  refine ⟨?_, rfl, ?_, ?_⟩
  · intro hs
    have := (Bool.and_eq_true _ _).mp hs
    exact of_decide_eq_true this.1
  · intro h
    unfold serverCancelOrder at h
    split at h
    · exact absurd h (by simp)
    · rename_i oc hfind
      by_cases hoc : oc.status = OrderStatus.OPEN
      · have hp := List.find?_some hfind
        exact ⟨oc, List.mem_of_find?_eq_some hfind, by simpa using hp, hoc⟩
      · rw [if_neg hoc] at h
        exact absurd h (by simp)
  · intro hmem hc
    exact runOnce_no_new_cancelled bot candles p fraction st o2 hmem hc

/-- Witness for C5: the concrete open order shows the Cancel control and is
indeed OPEN; the concrete cancel request is the explicit POST; the backend
cancel of the open order succeeds because it is OPEN; and the concrete
cancelled order surviving a pipeline run on `stW` was already in `stW`, all
by `cancel_requires_open_order`. -/
theorem cancel_requires_open_order_witness :
    ordersTableShowsCancel openOrderW true = true ∧
    serverCancelOrder [openOrderW] "o1" =
      .ok [⟨"o1", .BUY, 50, 10, .CANCELLED, .LONG, 10, none, 0⟩] ∧
    cancelledOrderW ∈ (runOnce 1 [] ⟨2, 1/10⟩ (1/2) stW).1.orders ∧
    cancelledOrderW.status = OrderStatus.CANCELLED ∧
    openOrderW.status = OrderStatus.OPEN ∧
    (cancelOrder [openOrderW] "o1" (Except.ok ())).1 =
      [⟨HttpMethod.POST, "/trading/orders/" ++ "o1" ++ "/cancel"⟩] ∧
    (∃ oc ∈ [openOrderW], oc.id = "o1" ∧ oc.status = OrderStatus.OPEN) ∧
    cancelledOrderW ∈ stW.orders :=
  ⟨by decide, by rfl, by decide, by decide,
    (cancel_requires_open_order openOrderW true [openOrderW] "o1"
      [⟨"o1", .BUY, 50, 10, .CANCELLED, .LONG, 10, none, 0⟩] (Except.ok ())
      1 [] ⟨2, 1/10⟩ (1/2) stW cancelledOrderW).1 (by decide),
    (cancel_requires_open_order openOrderW true [openOrderW] "o1"
      [⟨"o1", .BUY, 50, 10, .CANCELLED, .LONG, 10, none, 0⟩] (Except.ok ())
      1 [] ⟨2, 1/10⟩ (1/2) stW cancelledOrderW).2.1,
    (cancel_requires_open_order openOrderW true [openOrderW] "o1"
      [⟨"o1", .BUY, 50, 10, .CANCELLED, .LONG, 10, none, 0⟩] (Except.ok ())
      1 [] ⟨2, 1/10⟩ (1/2) stW cancelledOrderW).2.2.1 (by rfl),
    (cancel_requires_open_order openOrderW true [openOrderW] "o1"
      [⟨"o1", .BUY, 50, 10, .CANCELLED, .LONG, 10, none, 0⟩] (Except.ok ())
      1 [] ⟨2, 1/10⟩ (1/2) stW cancelledOrderW).2.2.2 (by decide) (by decide)⟩

/-- Claim C6 (counterexample): §4.4 permits `stop` from PAUSED and from
ERROR (it transitions both to STOPPED), yet the client `BotCard` offers no
Stop control in either state — so the claim that the stop command is
available for every bot in RUNNING, PAUSED or ERROR, and that the client
offers the commands exactly in the §4.4-permitted states, is false. -/
theorem botCard_stop_missing_counterexample :
    applyCommand BotCommand.stop BotState.paused = some BotState.stopped ∧
    BotCommand.stop ∉ botCardCommands BotState.paused ∧
    applyCommand BotCommand.stop BotState.error = some BotState.stopped ∧
    botCardCommands BotState.error = [] := by decide

/-- Claim C6 (amended): the backend `stop` transition moves RUNNING, PAUSED
and ERROR to STOPPED, and the client `BotCard` offers a strict subset of
the §4.4-permitted commands: Start only when stopped, Pause and Stop only
when running, Resume only when paused, and no state command when in error
(every offered command is a permitted transition, but Stop is not offered
in PAUSED or ERROR). -/
theorem botCard_commands_subset_of_transitions :
    (∀ s : BotState,
      s = BotState.running ∨ s = BotState.paused ∨ s = BotState.error →
      applyCommand BotCommand.stop s = some BotState.stopped) ∧
    (∀ (s : BotState) (c : BotCommand), c ∈ botCardCommands s →
      (applyCommand c s).isSome = true) ∧
    botCardCommands BotState.stopped = [BotCommand.start] ∧
    botCardCommands BotState.running = [BotCommand.pause, BotCommand.stop] ∧
    botCardCommands BotState.paused = [BotCommand.resume] ∧
    botCardCommands BotState.error = [] := by
  refine ⟨?_, ?_, rfl, rfl, rfl, rfl⟩
  · intro s hs
    rcases hs with h | h | h <;> subst h <;> rfl
  · intro s c hc
    cases s
    · simp only [botCardCommands, List.mem_singleton] at hc
      subst hc
      rfl
    · simp only [botCardCommands, List.mem_cons, List.mem_singleton,
        List.not_mem_nil, or_false] at hc
      rcases hc with rfl | rfl <;> rfl
    · simp only [botCardCommands, List.not_mem_nil] at hc
    · simp only [botCardCommands, List.mem_singleton] at hc
      subst hc
      rfl

/-- Witness for C6: the running state satisfies the stop-transition
hypothesis and Pause is an offered, permitted command there, by
`botCard_commands_subset_of_transitions`. -/
theorem botCard_commands_subset_witness :
    (BotState.running = BotState.running ∨ BotState.running = BotState.paused ∨
      BotState.running = BotState.error) ∧
    BotCommand.pause ∈ botCardCommands BotState.running ∧
    applyCommand BotCommand.stop BotState.running = some BotState.stopped ∧
    (applyCommand BotCommand.pause BotState.running).isSome = true :=
  ⟨Or.inl rfl, by decide,
    botCard_commands_subset_of_transitions.1 BotState.running (Or.inl rfl),
    botCard_commands_subset_of_transitions.2.1 BotState.running BotCommand.pause
      (by decide)⟩

/-- Claim C7: a configuration update is permitted only while the bot is
STOPPED — on a stopped bot it succeeds, and in any other state the backend
rejects it and the client's bot list is left unchanged (the bot record is
not replaced). -/
theorem config_update_only_when_stopped (b : Bot) (u : BotUpdate)
    (bots : List Bot) :
    (b.state = BotState.stopped → ∃ b2, updateBotConfig b u = .ok b2) ∧
    (b.state ≠ BotState.stopped →
      updateBotConfig b u =
        .error "configuration updates are only permitted while the bot is stopped" ∧
      updateBot bots b.id (updateBotConfig b u) = (bots, none)) := by
  constructor
  · intro h
    unfold updateBotConfig
    rw [if_pos h]
    exact ⟨_, rfl⟩
  · intro h
    unfold updateBotConfig
    rw [if_neg h]
    exact ⟨rfl, rfl⟩

/-- Witness for C7: the concrete running bot is not stopped, its update is
rejected and the client list is unchanged, by
`config_update_only_when_stopped`. -/
theorem config_update_only_when_stopped_witness :
    botRunningW.state ≠ BotState.stopped ∧
    (updateBotConfig botRunningW updateW =
        .error "configuration updates are only permitted while the bot is stopped" ∧
      updateBot [botRunningW] botRunningW.id (updateBotConfig botRunningW updateW) =
        ([botRunningW], none)) :=
  ⟨by decide,
    (config_update_only_when_stopped botRunningW updateW [botRunningW]).2 (by decide)⟩

/-- Claim C8: the bot form validation rejects — and `handleSubmit` then
issues no create/update request for — any lookback outside [5,100] and any
min_confidence outside [0.1,1.0]; the form's defaults are lookback = 20 and
min_confidence = 0.6. -/
theorem form_validation_bounds (f : BotFormData) :
    ((f.lookback < 5 ∨ f.lookback > 100) → handleSubmitIssuesRequest f = false) ∧
    ((f.min_confidence < 1/10 ∨ f.min_confidence > 1) →
      handleSubmitIssuesRequest f = false) ∧
    initialFormData.lookback = 20 ∧
    initialFormData.min_confidence = 6/10 := by
  refine ⟨?_, ?_, rfl, rfl⟩
  · intro h
    have hmem : "lookback" ∈ validateForm f := by
      unfold validateForm
      rw [if_pos h]
      simp
    have hne : validateForm f ≠ [] := List.ne_nil_of_mem hmem
    unfold handleSubmitIssuesRequest
    simpa using hne
  · intro h
    have hmem : "min_confidence" ∈ validateForm f := by
      unfold validateForm
      rw [if_pos h]
      simp
    have hne : validateForm f ≠ [] := List.ne_nil_of_mem hmem
    unfold handleSubmitIssuesRequest
    simpa using hne

/-- Witness for C8: a form with lookback 200 and one with min_confidence 2
are both rejected with no request issued, by `form_validation_bounds`. -/
theorem form_validation_bounds_witness :
    (badFormW.lookback < 5 ∨ badFormW.lookback > 100) ∧
    handleSubmitIssuesRequest badFormW = false ∧
    (badForm2W.min_confidence < 1/10 ∨ badForm2W.min_confidence > 1) ∧
    handleSubmitIssuesRequest badForm2W = false :=
  ⟨by decide, (form_validation_bounds badFormW).1 (by decide),
    Or.inr (by norm_num [badForm2W, initialFormData]),
    (form_validation_bounds badForm2W).2.1
      (Or.inr (by norm_num [badForm2W, initialFormData]))⟩

/-- Claim C9: reading the portfolio summary is a side-effect-free derived
read: the frontend hook issues nothing but GET requests (exactly the one
portfolio GET when the bot id is nonempty), and the backend portfolio read
leaves the whole bot run state — signals, orders, position, balance —
unchanged while answering with the summary derived from it. -/
theorem portfolio_read_no_side_effects (botId : String)
    (resp : Except String PortfolioSummary) (s : PortfolioHookState)
    (st : BotRunState) (markPrice : ℚ) :
    (∀ r ∈ (fetchPortfolio botId resp s).1, r.method = HttpMethod.GET) ∧
    (botId ≠ "" → (fetchPortfolio botId resp s).1 =
      [⟨HttpMethod.GET, "/trading/portfolio/" ++ botId⟩]) ∧
    (handleTradingRequest st markPrice (.getPortfolio botId)).1 = st ∧
    (handleTradingRequest st markPrice (.getPortfolio botId)).2 =
      some (getPortfolioSummary st markPrice) := by
  refine ⟨?_, ?_, rfl, rfl⟩
  · intro r hr
    unfold fetchPortfolio at hr
    by_cases hb : botId = ""
    · rw [if_pos hb] at hr
      simp at hr
    · rw [if_neg hb] at hr
      simp only [List.mem_singleton] at hr
      rw [hr]
  · intro hb
    unfold fetchPortfolio
    rw [if_neg hb]

/-- Witness for C9: bot id "b1" is nonempty, the hook issues exactly the
portfolio GET, and the backend read leaves the concrete state `stW`
unchanged, by `portfolio_read_no_side_effects`. -/
theorem portfolio_read_no_side_effects_witness :
    ("b1" : String) ≠ "" ∧
    (fetchPortfolio "b1" (Except.error "e") ⟨none, false⟩).1 =
      [⟨HttpMethod.GET, "/trading/portfolio/" ++ "b1"⟩] ∧
    (handleTradingRequest stW 10 (.getPortfolio "b1")).1 = stW :=
  ⟨by decide,
    (portfolio_read_no_side_effects "b1" (Except.error "e") ⟨none, false⟩ stW 10).2.1
      (by decide),
    (portfolio_read_no_side_effects "b1" (Except.error "e") ⟨none, false⟩ stW 10).2.2.1⟩

/-- Claim C10: `ApiClient.request` never returns normally on a non-ok
response — it throws the body parsed as JSON when parsing succeeds, and the
fallback object (type "NetworkError", message "Network request failed", the
response's status code) when parsing fails — and on an ok response with a
parsable body it returns the parsed JSON body. -/
theorem apiClient_request_error_contract (resp : HttpResponse) (j : Json) :
    (resp.ok = false → ∀ v, ApiClient.request resp ≠ .ok v) ∧
    (resp.ok = false → resp.body = some j →
      ApiClient.request resp = .error (.jsonError j)) ∧
    (resp.ok = false → resp.body = none →
      ApiClient.request resp = .error (.jsonError (fallbackNetworkError resp.status))) ∧
    (resp.ok = true → resp.body = some j → ApiClient.request resp = .ok j) := by
  obtain ⟨ok, status, body⟩ := resp
  refine ⟨?_, ?_, ?_, ?_⟩
  · rintro rfl v
    rcases body with _ | jb <;> simp [ApiClient.request]
  · rintro rfl hb
    simp only at hb
    subst hb
    rfl
  · rintro rfl hb
    simp only at hb
    subst hb
    rfl
  · rintro rfl hb
    simp only at hb
    subst hb
    rfl

/-- Witness for C10: a non-ok 404 response with a parsable body throws that
body; a non-ok 500 response with an unparsable body throws the fallback
NetworkError object; an ok 200 response returns its parsed body — all by
`apiClient_request_error_contract`. -/
theorem apiClient_request_error_contract_witness :
    (⟨false, 404, some (Json.str "bad")⟩ : HttpResponse).ok = false ∧
    (⟨false, 404, some (Json.str "bad")⟩ : HttpResponse).body = some (Json.str "bad") ∧
    ApiClient.request ⟨false, 404, some (Json.str "bad")⟩ =
      .error (.jsonError (Json.str "bad")) ∧
    ApiClient.request ⟨false, 500, none⟩ =
      .error (.jsonError (fallbackNetworkError 500)) ∧
    ApiClient.request ⟨true, 200, some (Json.num 1)⟩ = .ok (Json.num 1) :=
  ⟨rfl, rfl,
    (apiClient_request_error_contract ⟨false, 404, some (Json.str "bad")⟩
      (Json.str "bad")).2.1 rfl rfl,
    (apiClient_request_error_contract ⟨false, 500, none⟩ Json.null).2.2.1 rfl rfl,
    (apiClient_request_error_contract ⟨true, 200, some (Json.num 1)⟩
      (Json.num 1)).2.2.2 rfl rfl⟩

end TradingBot
